import Mathlib

/-!
Verification of the floating video overlay subsystem of `blink/chatwindow.py`
(class `VideoWidget` and class `VideoScreenshot`).

The embedding follows the Python/Qt source:
* Qt integer geometry (`QPoint`, `QSize`, `QRect`) is modelled over `ℤ` with
  Qt's conventions (`right = x + w - 1`, C++ truncating division for centers).
* Qt floating geometry (`QPointF`, `QSizeF`, `QRectF`) is modelled over `ℚ`
  (the Python code does exact-looking arithmetic on doubles; rationals are the
  idealised shallow embedding of that arithmetic).
* `VideoSurface.width_for_height` / `height_for_width` live in
  `blink/widgets/video.py`, which is not part of the sources at hand; they are
  carried as function parameters (`wfh`, `hfw`), modelled from the spec:
  "pure functions computing aspect-ratio-constrained dimensions".
-/

namespace BlinkChat

/-! ## Qt geometry primitives -/

/-- Qt `QPoint`: integer point. -/
structure QPoint where
  x : ℤ
  y : ℤ
  deriving DecidableEq, Repr

/-- Qt `QSize`: integer size. -/
structure QSize where
  w : ℤ
  h : ℤ
  deriving DecidableEq, Repr

/-- Qt `QSize.isValid()`: both dimensions nonnegative. -/
def QSize.isValid (s : QSize) : Prop := 0 ≤ s.w ∧ 0 ≤ s.h

instance (s : QSize) : Decidable s.isValid := by unfold QSize.isValid; infer_instance

/-- Qt `QRect`: integer rectangle stored as top-left corner plus size. -/
structure QRect where
  x : ℤ
  y : ℤ
  w : ℤ
  h : ℤ
  deriving DecidableEq, Repr

namespace QRect

/-- Qt `QRect.right()` is `x + width - 1` (historical Qt convention). -/
def right (r : QRect) : ℤ := r.x + r.w - 1

/-- Qt `QRect.bottom()` is `y + height - 1`. -/
def bottom (r : QRect) : ℤ := r.y + r.h - 1

def topLeft (r : QRect) : QPoint := ⟨r.x, r.y⟩

def topRight (r : QRect) : QPoint := ⟨r.right, r.y⟩

def bottomLeft (r : QRect) : QPoint := ⟨r.x, r.bottom⟩

def bottomRight (r : QRect) : QPoint := ⟨r.right, r.bottom⟩

def size (r : QRect) : QSize := ⟨r.w, r.h⟩

/-- Qt `QRect.center()`: `((x1+x2)/2, (y1+y2)/2)` with C++ truncating
integer division (`Int.tdiv`), where `x2 = x1 + w - 1`. -/
def center (r : QRect) : QPoint :=
  ⟨Int.tdiv (r.x + r.right) 2, Int.tdiv (r.y + r.bottom) 2⟩

/-- Qt `QRect.moveRight(xr)`: translate horizontally so that `right() = xr`. -/
def moveRight (r : QRect) (xr : ℤ) : QRect := { r with x := xr - r.w + 1 }

/-- Qt `QRect.moveBottom(yb)`: translate vertically so that `bottom() = yb`. -/
def moveBottom (r : QRect) (yb : ℤ) : QRect := { r with y := yb - r.h + 1 }

/-- Qt `QRect.moveLeft(xl)`. -/
def moveLeft (r : QRect) (xl : ℤ) : QRect := { r with x := xl }

/-- Qt `QRect.moveTop(yt)`. -/
def moveTop (r : QRect) (yt : ℤ) : QRect := { r with y := yt }

def moveTopLeft (r : QRect) (p : QPoint) : QRect := { r with x := p.x, y := p.y }

def moveTopRight (r : QRect) (p : QPoint) : QRect :=
  { r with x := p.x - r.w + 1, y := p.y }

def moveBottomLeft (r : QRect) (p : QPoint) : QRect :=
  { r with x := p.x, y := p.y - r.h + 1 }

def moveBottomRight (r : QRect) (p : QPoint) : QRect :=
  { r with x := p.x - r.w + 1, y := p.y - r.h + 1 }

/-- Qt `QRect.moveCenter(p)`: Qt computes `w = x2 - x1` (i.e. `width - 1`)
and sets `x1 = p.x - w/2` with C++ truncating division. -/
def moveCenter (r : QRect) (p : QPoint) : QRect :=
  { r with x := p.x - Int.tdiv (r.w - 1) 2, y := p.y - Int.tdiv (r.h - 1) 2 }

/-- Qt `QRect.translated(p)`. -/
def translatedBy (r : QRect) (p : QPoint) : QRect :=
  { r with x := r.x + p.x, y := r.y + p.y }

end QRect

/-- Qt `QPointF`: rational point. -/
structure QPointF where
  x : ℚ
  y : ℚ
  deriving DecidableEq, Repr

/-- Qt `QSizeF`: rational size. -/
structure QSizeF where
  w : ℚ
  h : ℚ
  deriving DecidableEq, Repr

/-- `QSizeF(event.oldSize())`: exact conversion of an integer size. -/
def QSize.toF (s : QSize) : QSizeF := ⟨(s.w : ℚ), (s.h : ℚ)⟩

/-- Qt `QRectF`: rational rectangle (top-left corner plus size). -/
structure QRectF where
  x : ℚ
  y : ℚ
  w : ℚ
  h : ℚ
  deriving DecidableEq, Repr

namespace QRectF

/-- Qt `QRectF.center()`: exact midpoint. -/
def centerF (r : QRectF) : QPointF := ⟨r.x + r.w / 2, r.y + r.h / 2⟩

/-- Qt `QRectF.toAlignedRect()`: the smallest integer rectangle containing
the rational one (`floor` the top-left corner, `ceil` the bottom-right). -/
def toAlignedRect (r : QRectF) : QRect :=
  let xmin := ⌊r.x⌋
  let ymin := ⌊r.y⌋
  let xmax := ⌈r.x + r.w⌉
  let ymax := ⌈r.y + r.h⌉
  ⟨xmin, ymin, xmax - xmin, ymax - ymin⟩

end QRectF

/-- Low x/y edge of a possibly denormalised Qt rectangle span
(Qt `QRectF.contains` normalises a negative extent). -/
def lowEdge (a len : ℚ) : ℚ := if len < 0 then a + len else a

/-- High x/y edge of a possibly denormalised Qt rectangle span. -/
def highEdge (a len : ℚ) : ℚ := if len < 0 then a else a + len

/-- Qt `QRectF.contains(QPointF)`: the point is inside or on the edge of the
rectangle, and the rectangle is not null in either dimension.  Both interval
ends are included (Qt uses `p.x < l || p.x > r` to reject). -/
def containsP (r : QRectF) (p : QPointF) : Prop :=
  lowEdge r.x r.w ≠ highEdge r.x r.w ∧ lowEdge r.y r.h ≠ highEdge r.y r.h ∧
  lowEdge r.x r.w ≤ p.x ∧ p.x ≤ highEdge r.x r.w ∧
  lowEdge r.y r.h ≤ p.y ∧ p.y ≤ highEdge r.y r.h

instance (r : QRectF) (p : QPointF) : Decidable (containsP r p) := by
  unfold containsP; infer_instance

/-! ## Gravity classification (`VideoWidget.resizeEvent`, lines 1086-1111)

The handler partitions the new host size into a 3x3 grid of `quadrant`
rectangles (`quadrant = QRectF(QPointF(0, 0), new_size/3)` translated by
multiples of its width/height) and tests which cell contains the scaled
preview's center, in a fixed `if`/`elif` order. -/

/-- One of the nine gravity zones, in the order the `if`/`elif` chain tests
them (top row left-to-right, then middle row, then bottom row). -/
inductive Gravity where
  | topLeft | top | topRight
  | left | center | right
  | bottomLeft | bottom | bottomRight
  deriving DecidableEq, Repr

/-- `quadrant.translated(i*quadrant.width(), j*quadrant.height())` where
`quadrant = QRectF(QPointF(0, 0), new_size/3)`. -/
def quadAt (s : QSizeF) (i j : ℚ) : QRectF :=
  ⟨i * (s.w / 3), j * (s.h / 3), s.w / 3, s.h / 3⟩

/-- The `if`/`elif` chain of `resizeEvent` classifying `preview_center`
against the 3x3 grid of the (new) host size; `none` when no cell contains
the point (then no `move*` call runs and the preview rectangle keeps its
freshly-constructed origin position). -/
def classifyGravity (s : QSizeF) (p : QPointF) : Option Gravity :=
  if containsP (quadAt s 0 0) p then some .topLeft
  else if containsP (quadAt s 1 0) p then some .top
  else if containsP (quadAt s 2 0) p then some .topRight
  else if containsP (quadAt s 0 1) p then some .left
  else if containsP (quadAt s 1 1) p then some .center
  else if containsP (quadAt s 2 1) p then some .right
  else if containsP (quadAt s 0 2) p then some .bottomLeft
  else if containsP (quadAt s 1 2) p then some .bottom
  else if containsP (quadAt s 2 2) p then some .bottomRight
  else none

/-- The `move*` calls performed by each branch of the chain on
`preview_geometry` (anchoring it to `ideal_geometry`); `none` leaves the
rectangle untouched. -/
def applyGravityMove (z : Option Gravity) (pg ideal : QRect) : QRect :=
  match z with
  | some .topLeft => pg.moveTopLeft ideal.topLeft
  | some .top => (pg.moveCenter ideal.center).moveTop ideal.y
  | some .topRight => pg.moveTopRight ideal.topRight
  | some .left => (pg.moveCenter ideal.center).moveLeft ideal.x
  | some .center => pg.moveCenter ideal.center
  | some .right => (pg.moveCenter ideal.center).moveRight ideal.right
  | some .bottomLeft => pg.moveBottomLeft ideal.bottomLeft
  | some .bottom => (pg.moveCenter ideal.center).moveBottom ideal.bottom
  | some .bottomRight => pg.moveBottomRight ideal.bottomRight
  | none => pg

/-! ## The preview positioner (`VideoWidget.resizeEvent`, lines 1055-1113) -/

/-- `limit` from `application.python`: clamp `value` into `[lo, hi]`
(`max(lo, min(value, hi))`). -/
def limitQ (value lo hi : ℚ) : ℚ := max lo (min value hi)

/-- The default preview height formula `(height + 117) / 6` scaled by the
user-adjustable scale factor (lines 1083 and 1266). -/
def defaultPreviewHeight (hostH sf : ℚ) : ℚ := (hostH + 117) / 6 * sf

/-- The part of the `VideoWidget` state that `resizeEvent` and
`_SH_CameraPreviewAdjusted` read and write: the camera preview's geometry
(`camera_preview.geometry()`, relative to the host), its user scale factor,
its min/max height constraints, and whether `preview_animation` is running. -/
structure PreviewState where
  geometry : QRect
  scaleFactor : ℚ
  minH : ℤ
  maxH : ℤ
  animRunning : Bool
  deriving DecidableEq, Repr

/-- `QRectF(QPointF(geometry.topLeft()) * ratio, QSizeF(size()) * ratio)`
(line 1074): the previous preview rectangle scaled by `ratio`. -/
def scaledPreviewRect (g : QRect) (ratio : ℚ) : QRectF :=
  ⟨(g.x : ℚ) * ratio, (g.y : ℚ) * ratio, (g.w : ℚ) * ratio, (g.h : ℚ) * ratio⟩

/-- `preview_center` (line 1075): center of the scaled preview rectangle. -/
def scaledPreviewCenter (g : QRect) (ratio : ℚ) : QPointF :=
  (scaledPreviewRect g ratio).centerF

/-- `ideal_geometry` (lines 1076-1081): the scaled rectangle aligned to
integers, then pulled in so its right/bottom edges do not exceed the host's
(`self.rect().right() = newW - 1`, `self.rect().bottom() = newH - 1`).
The left/top edges are not adjusted. -/
def idealGeometry (g : QRect) (ratio : ℚ) (newSize : QSize) : QRect :=
  let i0 := (scaledPreviewRect g ratio).toAlignedRect
  let i1 := if i0.right > newSize.w - 1 then i0.moveRight (newSize.w - 1) else i0
  if i1.bottom > newSize.h - 1 then i1.moveBottom (newSize.h - 1) else i1

/-- Conversion of a (nonnegative, in all reachable uses) rational preview
height to the integer stored in a `QRect`; Qt/sip coerces by C truncation. -/
def qtRound (q : ℚ) : ℤ := ⌊q⌋

/-- `ratio = new_size.height() / old_size.height()` (line 1069). -/
def resizeRatio (oldSize newSize : QSize) : ℚ := newSize.toF.h / oldSize.toF.h

/-- `new_height` (line 1083): the clamped target height of the preview. -/
def previewTargetHeight (s : PreviewState) (newSize : QSize) : ℚ :=
  limitQ (defaultPreviewHeight newSize.toF.h s.scaleFactor)
    (s.minH : ℚ) (s.maxH : ℚ)

/-- `preview_geometry = QRect(0, 0, self.width_for_height(new_height),
new_height)` (line 1084). -/
def previewTargetRect (wfh : ℚ → ℤ) (s : PreviewState) (newSize : QSize) :
    QRect :=
  ⟨0, 0, wfh (previewTargetHeight s newSize),
    qtRound (previewTargetHeight s newSize)⟩

/-- `VideoWidget.resizeEvent` (lines 1055-1113), parameterised by
`wfh = VideoSurface.width_for_height` (modelled from the spec: a pure
aspect-ratio function, `blink/widgets/video.py` is not among the sources).
`newSize` is `event.size()` (the widget's size when the handler runs, so
`self.rect() = QRect(0, 0, newSize.w, newSize.h)`), `oldSize` is
`event.oldSize()`. -/
def resizeEvent (wfh : ℚ → ℤ) (s : PreviewState) (oldSize newSize : QSize) :
    PreviewState :=
  -- line 1056: return while the preview animation is running
  if s.animRunning then s
  -- line 1059: return when the old size is invalid (first layout)
  else if ¬ oldSize.isValid then s
  -- lines 1062-1064: fullscreen-preview case, resize 1:1 and return
  else if s.geometry.size = oldSize then
    { s with geometry := { s.geometry with w := newSize.w, h := newSize.h } }
  else
    -- lines 1066-1069
    let ratio : ℚ := resizeRatio oldSize newSize
    -- line 1071: width-only change, return
    if ratio = 1 then s
    else
      -- lines 1074-1081
      let previewCenter := scaledPreviewCenter s.geometry ratio
      let ideal := idealGeometry s.geometry ratio newSize
      -- lines 1083-1084
      let pg : QRect := previewTargetRect wfh s newSize
      -- lines 1086-1113
      { s with geometry :=
          applyGravityMove (classifyGravity newSize.toF previewCenter) pg ideal }

/-- `VideoWidget._SH_CameraPreviewAdjusted` (lines 1264-1267): after a
user drag-resize of the preview from `oldG` to `newG`, if the size changed,
store `new_geometry.height() / ((self.height() + 117) / 6)` as the scale
factor (`hostH` is the host widget's current height). -/
def cameraPreviewAdjusted (s : PreviewState) (hostH : ℤ) (oldG newG : QRect) :
    PreviewState :=
  if newG.size ≠ oldG.size then
    { s with scaleFactor := (newG.h : ℚ) / (((hostH : ℚ) + 117) / 6) }
  else s

/-- The gravity zone of an integer rectangle's exact center within a host of
the given size (used to express the pre/post-resize anchor of the preview). -/
def rectZone (host : QSizeF) (r : QRect) : Option Gravity :=
  classifyGravity host ⟨(r.x : ℚ) + (r.w : ℚ) / 2, (r.y : ℚ) + (r.h : ℚ) / 2⟩

/-- Rectangle `r` lies fully inside the host rectangle
`QRect(0, 0, host.w, host.h)`: no overflow on the left, top, right or
bottom edge. -/
def contained (r : QRect) (host : QSize) : Prop :=
  0 ≤ r.x ∧ 0 ≤ r.y ∧ r.x + r.w ≤ host.w ∧ r.y + r.h ≤ host.h

instance (r : QRect) (host : QSize) : Decidable (contained r host) := by
  unfold contained; infer_instance

/-! ## Scale invariance of the gravity classification -/

lemma lowEdge_scale (r a len : ℚ) (hr : 0 < r) :
    lowEdge (r * a) (r * len) = r * lowEdge a len := by
  unfold lowEdge
  rcases lt_or_ge len 0 with h | h
  · rw [if_pos (mul_neg_of_pos_of_neg hr h), if_pos h]; ring
  · rw [if_neg (not_lt.2 (mul_nonneg hr.le h)), if_neg (not_lt.2 h)]

lemma highEdge_scale (r a len : ℚ) (hr : 0 < r) :
    highEdge (r * a) (r * len) = r * highEdge a len := by
  unfold highEdge
  rcases lt_or_ge len 0 with h | h
  · rw [if_pos (mul_neg_of_pos_of_neg hr h), if_pos h]
  · rw [if_neg (not_lt.2 (mul_nonneg hr.le h)), if_neg (not_lt.2 h)]; ring

lemma containsP_scale (r : ℚ) (hr : 0 < r) (q : QRectF) (p : QPointF) :
    containsP ⟨r * q.x, r * q.y, r * q.w, r * q.h⟩ ⟨r * p.x, r * p.y⟩ ↔
      containsP q p := by
  unfold containsP
  simp only [lowEdge_scale _ _ _ hr, highEdge_scale _ _ _ hr, ne_eq,
    mul_right_inj' hr.ne', mul_le_mul_left hr]

lemma quadAt_scale (r : ℚ) (S : QSizeF) (i j : ℚ) :
    quadAt ⟨r * S.w, r * S.h⟩ i j =
      ⟨r * (i * (S.w / 3)), r * (j * (S.h / 3)), r * (S.w / 3), r * (S.h / 3)⟩ := by
  unfold quadAt
  congr 1 <;> ring

lemma containsP_quadAt_scale (r : ℚ) (hr : 0 < r) (S : QSizeF) (p : QPointF)
    (i j : ℚ) :
    containsP (quadAt ⟨r * S.w, r * S.h⟩ i j) ⟨r * p.x, r * p.y⟩ ↔
      containsP (quadAt S i j) p := by
  rw [quadAt_scale]
  exact containsP_scale r hr (quadAt S i j) p

/-- Scaling the host size and the tested point by the same positive factor
does not change the gravity classification. -/
lemma classifyGravity_scale (r : ℚ) (hr : 0 < r) (S : QSizeF) (p : QPointF) :
    classifyGravity ⟨r * S.w, r * S.h⟩ ⟨r * p.x, r * p.y⟩ = classifyGravity S p := by
  unfold classifyGravity
  simp only [containsP_quadAt_scale r hr S p]

/-- If the classification chain returns `topLeft` then the first cell of the
grid contains the point (the chain tests that cell first). -/
lemma classifyGravity_topLeft (S : QSizeF) (p : QPointF)
    (h : classifyGravity S p = some .topLeft) : containsP (quadAt S 0 0) p := by
  unfold classifyGravity at h
  split_ifs at h with h1 h2 h3 h4 h5 h6 h7 h8 h9
  · exact h1
  all_goals simp_all

/-! ## Claim C1: gravity preservation across a resize -/

/-- Claim C1 as stated: for every host resize with a valid old size, a
height ratio different from 1, the preview not exactly filling the host and
no preview animation running (and whatever aspect-ratio width function the
video surface uses), the gravity zone of the preview's rectangle in the new
host after `resizeEvent` equals the zone of its rectangle in the old host
before. -/
def C1Prop : Prop :=
  ∀ (wfh : ℚ → ℤ) (s : PreviewState) (oldSize newSize : QSize),
    s.animRunning = false →
    oldSize.isValid →
    s.geometry.size ≠ oldSize →
    newSize.toF.h / oldSize.toF.h ≠ 1 →
    rectZone newSize.toF ((resizeEvent wfh s oldSize newSize).geometry) =
      rectZone oldSize.toF s.geometry

/-- C1 counterexample: host resized from 300x300 to 300x60 (ratio 1/5) with
the preview at `QRect(0, 0, 80, 45)`.  Before the resize the preview's
center (40, 22.5) lies in the top-left cell; the handler anchors the new
45-high preview at the top-left corner, but the new host's rows are only 20
high, so the new center (w/2, 22.5) lies in the middle row: the zone
changes. -/
theorem C1_counterexample : ¬ C1Prop := by
  intro h
  have hc := h (fun _ => 80) ⟨⟨0, 0, 80, 45⟩, 1, 45, 135, false⟩ ⟨300, 300⟩ ⟨300, 60⟩
    rfl (by constructor <;> norm_num) (by decide) (by norm_num [QSize.toF])
  norm_num [rectZone, resizeEvent, QSize.isValid, QSize.toF, QRect.size,
    scaledPreviewCenter, scaledPreviewRect, QRectF.centerF, idealGeometry,
    QRectF.toAlignedRect, QRect.right, QRect.bottom, QRect.moveRight,
    QRect.moveBottom, classifyGravity, containsP, quadAt, lowEdge, highEdge,
    limitQ, defaultPreviewHeight, qtRound, resizeRatio, previewTargetHeight,
    previewTargetRect, applyGravityMove, QRect.moveTopLeft, QRect.topLeft] at hc
  exact absurd hc (by decide)

/-- The C1 failure does not depend on the unknown aspect-ratio function of
the video surface: at the counterexample input the preview's zone after the
resize differs from its zone before the resize for every possible preview
width (the vertical coordinate alone already forces the change). -/
theorem C1_zone_change_for_every_width (wfh : ℚ → ℤ) :
    rectZone (⟨300, 60⟩ : QSize).toF
        ((resizeEvent wfh ⟨⟨0, 0, 80, 45⟩, 1, 45, 135, false⟩
          ⟨300, 300⟩ ⟨300, 60⟩).geometry) ≠
      rectZone (⟨300, 300⟩ : QSize).toF ⟨0, 0, 80, 45⟩ := by
  intro hEq
  have hrun : (resizeEvent wfh ⟨⟨0, 0, 80, 45⟩, 1, 45, 135, false⟩
      ⟨300, 300⟩ ⟨300, 60⟩).geometry = ⟨0, 0, wfh 45, 45⟩ := by
    norm_num [resizeEvent, QSize.isValid, QSize.toF, QRect.size,
      scaledPreviewCenter, scaledPreviewRect, QRectF.centerF, idealGeometry,
      QRectF.toAlignedRect, QRect.right, QRect.bottom, QRect.moveRight,
      QRect.moveBottom, classifyGravity, containsP, quadAt, lowEdge, highEdge,
      limitQ, defaultPreviewHeight, qtRound, resizeRatio, previewTargetHeight,
      previewTargetRect, applyGravityMove, QRect.moveTopLeft, QRect.topLeft]
  have hold : rectZone (⟨300, 300⟩ : QSize).toF (⟨0, 0, 80, 45⟩ : QRect) =
      some .topLeft := by
    norm_num [rectZone, classifyGravity, containsP, quadAt, lowEdge, highEdge,
      QSize.toF]
  rw [hrun, hold] at hEq
  unfold rectZone at hEq
  obtain ⟨-, -, -, -, -, hy⟩ := classifyGravity_topLeft _ _ hEq
  norm_num [quadAt, highEdge, QSize.toF] at hy

/-- Amended C1: at the moment the handler classifies the scaled preview
(the classification that selects the repositioning branch), the zone equals
the preview's pre-resize zone, provided the resize is proportional
(`newSize.w/oldSize.w = newSize.h/oldSize.h`, stated multiplicatively).
The counterexample shows the zone of the final rectangle itself can still
change when the clamped target size shifts its center across a cell
boundary, and a disproportionate width change can likewise break it. -/
theorem C1_gravity_preserved_at_classification (s : PreviewState)
    (oldSize newSize : QSize)
    (_hanim : s.animRunning = false) (_hvalid : oldSize.isValid)
    (_hfill : s.geometry.size ≠ oldSize)
    (hoh : 0 < oldSize.h) (hnh : 0 < newSize.h)
    (_hratio : newSize.toF.h / oldSize.toF.h ≠ 1)
    (hprop : (newSize.w : ℚ) * (oldSize.h : ℚ) = (newSize.h : ℚ) * (oldSize.w : ℚ)) :
    classifyGravity newSize.toF
        (scaledPreviewCenter s.geometry (newSize.toF.h / oldSize.toF.h)) =
      rectZone oldSize.toF s.geometry := by
  have hoQ : (0 : ℚ) < (oldSize.h : ℚ) := by exact_mod_cast hoh
  have hnQ : (0 : ℚ) < (newSize.h : ℚ) := by exact_mod_cast hnh
  set r : ℚ := newSize.toF.h / oldSize.toF.h with hrdef
  have hr : 0 < r := by
    rw [hrdef]
    exact div_pos (by simpa [QSize.toF] using hnQ) (by simpa [QSize.toF] using hoQ)
  have hH : (newSize.h : ℚ) = r * (oldSize.h : ℚ) := by
    rw [hrdef]
    simp only [QSize.toF]
    field_simp
  have hW : (newSize.w : ℚ) = r * (oldSize.w : ℚ) := by
    rw [hrdef]
    simp only [QSize.toF]
    rw [div_mul_eq_mul_div, eq_div_iff hoQ.ne']
    linarith [hprop]
  have hsize : newSize.toF = (⟨r * oldSize.toF.w, r * oldSize.toF.h⟩ : QSizeF) := by
    simp only [QSize.toF]
    rw [hW, hH]
  have hcen : scaledPreviewCenter s.geometry r =
      ⟨r * ((s.geometry.x : ℚ) + (s.geometry.w : ℚ) / 2),
       r * ((s.geometry.y : ℚ) + (s.geometry.h : ℚ) / 2)⟩ := by
    unfold scaledPreviewCenter scaledPreviewRect QRectF.centerF
    congr 1 <;> ring
  rw [hsize, hcen]
  simp only [rectZone]
  exact classifyGravity_scale r hr oldSize.toF
    ⟨(s.geometry.x : ℚ) + (s.geometry.w : ℚ) / 2,
     (s.geometry.y : ℚ) + (s.geometry.h : ℚ) / 2⟩

/-! ## Claim C2: containment of the repositioned preview -/

/-- When all four guards fail, `resizeEvent` repositions the preview to the
gravity-anchored target rectangle. -/
lemma resizeEvent_reposition (wfh : ℚ → ℤ) (s : PreviewState)
    (oldSize newSize : QSize)
    (hanim : s.animRunning = false) (hvalid : oldSize.isValid)
    (hfill : s.geometry.size ≠ oldSize)
    (hr1 : resizeRatio oldSize newSize ≠ 1) :
    (resizeEvent wfh s oldSize newSize).geometry =
      applyGravityMove
        (classifyGravity newSize.toF
          (scaledPreviewCenter s.geometry (resizeRatio oldSize newSize)))
        (previewTargetRect wfh s newSize)
        (idealGeometry s.geometry (resizeRatio oldSize newSize) newSize) := by
  simp only [resizeEvent, hanim, Bool.false_eq_true, if_false,
    if_neg (not_not_intro hvalid), if_neg hfill, if_neg hr1]

/-- After the clamping steps of lines 1078-1081, the candidate geometry's
right and bottom edges never exceed the host's. -/
lemma idealGeometry_clamped (g : QRect) (ratio : ℚ) (newSize : QSize) :
    (idealGeometry g ratio newSize).right ≤ newSize.w - 1 ∧
      (idealGeometry g ratio newSize).bottom ≤ newSize.h - 1 := by
  simp only [idealGeometry]
  generalize (scaledPreviewRect g ratio).toAlignedRect = i0
  obtain ⟨x, y, w, h⟩ := i0
  split_ifs <;>
    constructor <;>
    simp_all [QRect.right, QRect.bottom, QRect.moveRight, QRect.moveBottom] <;>
    omega

/-- Whatever branch runs, the anchored rectangle stays inside the host
provided its top-left construction origin is `(0, 0)`, the anchor rectangle
lies inside the host, and the new size fits inside the anchor rectangle. -/
lemma applyGravityMove_contained (z : Option Gravity)
    (ix iy iw ih pw ph W H : ℤ)
    (hx : 0 ≤ ix) (hy : 0 ≤ iy)
    (hR : ix + iw - 1 ≤ W - 1) (hB : iy + ih - 1 ≤ H - 1)
    (hw1 : 1 ≤ pw) (hh1 : 1 ≤ ph)
    (hw2 : pw ≤ iw) (hh2 : ph ≤ ih) :
    contained (applyGravityMove z ⟨0, 0, pw, ph⟩ ⟨ix, iy, iw, ih⟩) ⟨W, H⟩ := by
  have e1 : Int.tdiv (ix + (ix + iw - 1)) 2 = (ix + (ix + iw - 1)) / 2 :=
    Int.tdiv_eq_ediv (by omega) (by omega)
  have e2 : Int.tdiv (iy + (iy + ih - 1)) 2 = (iy + (iy + ih - 1)) / 2 :=
    Int.tdiv_eq_ediv (by omega) (by omega)
  have e3 : Int.tdiv (pw - 1) 2 = (pw - 1) / 2 :=
    Int.tdiv_eq_ediv (by omega) (by omega)
  have e4 : Int.tdiv (ph - 1) 2 = (ph - 1) / 2 :=
    Int.tdiv_eq_ediv (by omega) (by omega)
  rcases z with _ | z
  · simp only [applyGravityMove, contained]
    omega
  · cases z <;>
      simp only [applyGravityMove, contained, QRect.moveTopLeft, QRect.moveTop,
        QRect.moveLeft, QRect.moveRight, QRect.moveBottom, QRect.moveTopRight,
        QRect.moveBottomLeft, QRect.moveBottomRight, QRect.moveCenter,
        QRect.center, QRect.topLeft, QRect.topRight, QRect.bottomLeft,
        QRect.bottomRight, QRect.right, QRect.bottom, e1, e2, e3, e4] <;>
      omega

/-- Claim C2 as stated: whenever a resize repositions the preview and the
newly computed preview size is no larger than the host size, the resulting
preview rectangle is fully contained in the host rectangle. -/
def C2Prop : Prop :=
  ∀ (wfh : ℚ → ℤ) (s : PreviewState) (oldSize newSize : QSize),
    s.animRunning = false →
    oldSize.isValid →
    s.geometry.size ≠ oldSize →
    resizeRatio oldSize newSize ≠ 1 →
    (resizeEvent wfh s oldSize newSize).geometry.w ≤ newSize.w →
    (resizeEvent wfh s oldSize newSize).geometry.h ≤ newSize.h →
    contained ((resizeEvent wfh s oldSize newSize).geometry) newSize

/-- C2 counterexample: host resized from 300x300 to 90x60 (ratio 1/5) with
the preview at `QRect(0, 200, 10, 15)`.  The scaled candidate sits near the
bottom-left corner (bottom edge 42), the new 45-high preview is anchored by
its bottom-left corner, and since the code never clamps the top edge the
result `QRect(0, -2, 80, 45)` overflows the top of the host even though its
size (80x45) fits in the host (90x60). -/
theorem C2_counterexample : ¬ C2Prop := by
  intro h
  have hrun : (resizeEvent (fun _ => 80) ⟨⟨0, 200, 10, 15⟩, 1, 45, 135, false⟩
      ⟨300, 300⟩ ⟨90, 60⟩).geometry = ⟨0, -2, 80, 45⟩ := by
    norm_num [resizeEvent, QSize.isValid, QSize.toF, QRect.size,
      scaledPreviewCenter, scaledPreviewRect, QRectF.centerF, idealGeometry,
      QRectF.toAlignedRect, QRect.right, QRect.bottom, QRect.moveRight,
      QRect.moveBottom, classifyGravity, containsP, quadAt, lowEdge, highEdge,
      limitQ, defaultPreviewHeight, qtRound, resizeRatio, previewTargetHeight,
      previewTargetRect, applyGravityMove, QRect.moveBottomLeft,
      QRect.bottomLeft]
  have hc := h (fun _ => 80) ⟨⟨0, 200, 10, 15⟩, 1, 45, 135, false⟩
    ⟨300, 300⟩ ⟨90, 60⟩ rfl (by constructor <;> norm_num) (by decide)
    (by norm_num [resizeRatio, QSize.toF])
    (by rw [hrun]; norm_num) (by rw [hrun]; norm_num)
  rw [hrun] at hc
  obtain ⟨-, hy, -, -⟩ := hc
  norm_num at hy

/-- The C2 failure does not depend on the unknown aspect-ratio function: at
the counterexample input the repositioned preview's top edge is `-2`
(above the host) for every possible preview width. -/
theorem C2_overflow_for_every_width (wfh : ℚ → ℤ) :
    ((resizeEvent wfh ⟨⟨0, 200, 10, 15⟩, 1, 45, 135, false⟩
      ⟨300, 300⟩ ⟨90, 60⟩).geometry).y = -2 := by
  norm_num [resizeEvent, QSize.isValid, QSize.toF, QRect.size,
    scaledPreviewCenter, scaledPreviewRect, QRectF.centerF, idealGeometry,
    QRectF.toAlignedRect, QRect.right, QRect.bottom, QRect.moveRight,
    QRect.moveBottom, classifyGravity, containsP, quadAt, lowEdge, highEdge,
    limitQ, defaultPreviewHeight, qtRound, resizeRatio, previewTargetHeight,
    previewTargetRect, applyGravityMove, QRect.moveBottomLeft,
    QRect.bottomLeft]

/-- Amended C2: the code clamps only the candidate's right/bottom edges, so
full containment additionally needs the candidate anchor rectangle to lie
inside the host and the newly computed preview size to fit inside the
candidate; under those hypotheses the repositioned preview never overflows
any edge of the host. -/
theorem C2_containment_after_reanchor (wfh : ℚ → ℤ) (s : PreviewState)
    (oldSize newSize : QSize) (ideal pg : QRect)
    (hanim : s.animRunning = false) (hvalid : oldSize.isValid)
    (hfill : s.geometry.size ≠ oldSize)
    (hr1 : resizeRatio oldSize newSize ≠ 1)
    (hideal : ideal = idealGeometry s.geometry (resizeRatio oldSize newSize) newSize)
    (hpg : pg = previewTargetRect wfh s newSize)
    (hx : 0 ≤ ideal.x) (hy : 0 ≤ ideal.y)
    (hw1 : 1 ≤ pg.w) (hh1 : 1 ≤ pg.h)
    (hw2 : pg.w ≤ ideal.w) (hh2 : pg.h ≤ ideal.h) :
    contained ((resizeEvent wfh s oldSize newSize).geometry) newSize := by
  subst hideal hpg
  rw [resizeEvent_reposition wfh s oldSize newSize hanim hvalid hfill hr1]
  have hR := (idealGeometry_clamped s.geometry (resizeRatio oldSize newSize) newSize).1
  have hB := (idealGeometry_clamped s.geometry (resizeRatio oldSize newSize) newSize).2
  rw [QRect.right] at hR
  rw [QRect.bottom] at hB
  exact applyGravityMove_contained _
    (idealGeometry s.geometry (resizeRatio oldSize newSize) newSize).x
    (idealGeometry s.geometry (resizeRatio oldSize newSize) newSize).y
    (idealGeometry s.geometry (resizeRatio oldSize newSize) newSize).w
    (idealGeometry s.geometry (resizeRatio oldSize newSize) newSize).h
    (previewTargetRect wfh s newSize).w (previewTargetRect wfh s newSize).h
    newSize.w newSize.h hx hy hR hB hw1 hh1 hw2 hh2

/-- Concrete instance of the amended C2 theorem: host 300x300 grows to
600x600 with the preview at `QRect(30, 30, 100, 70)` and width function
returning 100. -/
theorem C2_witness :
    ((⟨⟨30, 30, 100, 70⟩, 1, 45, 135, false⟩ : PreviewState).animRunning = false) ∧
      (⟨300, 300⟩ : QSize).isValid ∧
      (⟨⟨30, 30, 100, 70⟩, 1, 45, 135, false⟩ : PreviewState).geometry.size ≠
        (⟨300, 300⟩ : QSize) ∧
      resizeRatio ⟨300, 300⟩ ⟨600, 600⟩ ≠ 1 ∧
      (0 : ℤ) ≤ (idealGeometry (⟨30, 30, 100, 70⟩ : QRect)
        (resizeRatio ⟨300, 300⟩ ⟨600, 600⟩) ⟨600, 600⟩).x ∧
      (0 : ℤ) ≤ (idealGeometry (⟨30, 30, 100, 70⟩ : QRect)
        (resizeRatio ⟨300, 300⟩ ⟨600, 600⟩) ⟨600, 600⟩).y ∧
      (1 : ℤ) ≤ (previewTargetRect (fun _ => 100)
        ⟨⟨30, 30, 100, 70⟩, 1, 45, 135, false⟩ ⟨600, 600⟩).w ∧
      (1 : ℤ) ≤ (previewTargetRect (fun _ => 100)
        ⟨⟨30, 30, 100, 70⟩, 1, 45, 135, false⟩ ⟨600, 600⟩).h ∧
      (previewTargetRect (fun _ => 100)
        ⟨⟨30, 30, 100, 70⟩, 1, 45, 135, false⟩ ⟨600, 600⟩).w ≤
        (idealGeometry (⟨30, 30, 100, 70⟩ : QRect)
          (resizeRatio ⟨300, 300⟩ ⟨600, 600⟩) ⟨600, 600⟩).w ∧
      (previewTargetRect (fun _ => 100)
        ⟨⟨30, 30, 100, 70⟩, 1, 45, 135, false⟩ ⟨600, 600⟩).h ≤
        (idealGeometry (⟨30, 30, 100, 70⟩ : QRect)
          (resizeRatio ⟨300, 300⟩ ⟨600, 600⟩) ⟨600, 600⟩).h ∧
      contained ((resizeEvent (fun _ => 100)
        ⟨⟨30, 30, 100, 70⟩, 1, 45, 135, false⟩ ⟨300, 300⟩ ⟨600, 600⟩).geometry)
        ⟨600, 600⟩ :=
  ⟨rfl, by constructor <;> norm_num, by decide,
    by norm_num [resizeRatio, QSize.toF],
    by norm_num [idealGeometry, scaledPreviewRect, QRectF.toAlignedRect,
      QRect.right, QRect.bottom, QRect.moveRight, QRect.moveBottom,
      resizeRatio, QSize.toF],
    by norm_num [idealGeometry, scaledPreviewRect, QRectF.toAlignedRect,
      QRect.right, QRect.bottom, QRect.moveRight, QRect.moveBottom,
      resizeRatio, QSize.toF],
    by norm_num [previewTargetRect, previewTargetHeight, limitQ,
      defaultPreviewHeight, qtRound, QSize.toF],
    by norm_num [previewTargetRect, previewTargetHeight, limitQ,
      defaultPreviewHeight, qtRound, QSize.toF],
    by norm_num [previewTargetRect, previewTargetHeight, limitQ,
      defaultPreviewHeight, qtRound, idealGeometry, scaledPreviewRect,
      QRectF.toAlignedRect, QRect.right, QRect.bottom, QRect.moveRight,
      QRect.moveBottom, resizeRatio, QSize.toF],
    by norm_num [previewTargetRect, previewTargetHeight, limitQ,
      defaultPreviewHeight, qtRound, idealGeometry, scaledPreviewRect,
      QRectF.toAlignedRect, QRect.right, QRect.bottom, QRect.moveRight,
      QRect.moveBottom, resizeRatio, QSize.toF],
    C2_containment_after_reanchor (fun _ => 100)
      ⟨⟨30, 30, 100, 70⟩, 1, 45, 135, false⟩ ⟨300, 300⟩ ⟨600, 600⟩ _ _
      rfl (by constructor <;> norm_num) (by decide)
      (by norm_num [resizeRatio, QSize.toF]) rfl rfl
      (by norm_num [idealGeometry, scaledPreviewRect, QRectF.toAlignedRect,
        QRect.right, QRect.bottom, QRect.moveRight, QRect.moveBottom,
        resizeRatio, QSize.toF])
      (by norm_num [idealGeometry, scaledPreviewRect, QRectF.toAlignedRect,
        QRect.right, QRect.bottom, QRect.moveRight, QRect.moveBottom,
        resizeRatio, QSize.toF])
      (by norm_num [previewTargetRect, previewTargetHeight, limitQ,
        defaultPreviewHeight, qtRound, QSize.toF])
      (by norm_num [previewTargetRect, previewTargetHeight, limitQ,
        defaultPreviewHeight, qtRound, QSize.toF])
      (by norm_num [previewTargetRect, previewTargetHeight, limitQ,
        defaultPreviewHeight, qtRound, idealGeometry, scaledPreviewRect,
        QRectF.toAlignedRect, QRect.right, QRect.bottom, QRect.moveRight,
        QRect.moveBottom, resizeRatio, QSize.toF])
      (by norm_num [previewTargetRect, previewTargetHeight, limitQ,
        defaultPreviewHeight, qtRound, idealGeometry, scaledPreviewRect,
        QRectF.toAlignedRect, QRect.right, QRect.bottom, QRect.moveRight,
        QRect.moveBottom, resizeRatio, QSize.toF])⟩

/-! ## Claim C3: totality of the gravity classification -/

/-- A point is in cell `(i, j)` of the grid when its coordinates are within
the cell's closed spans (the spans are nonnegative for a positive host). -/
lemma containsP_quadAt_of (S : QSizeF) (p : QPointF) (i j : ℚ)
    (hw : 0 < S.w) (hh : 0 < S.h)
    (hx0 : i * (S.w / 3) ≤ p.x) (hx1 : p.x ≤ i * (S.w / 3) + S.w / 3)
    (hy0 : j * (S.h / 3) ≤ p.y) (hy1 : p.y ≤ j * (S.h / 3) + S.h / 3) :
    containsP (quadAt S i j) p := by
  have h3w : ¬(S.w / 3 < 0) := not_lt.2 (by positivity)
  have h3h : ¬(S.h / 3 < 0) := not_lt.2 (by positivity)
  have hw3 : 0 < S.w / 3 := by positivity
  have hh3 : 0 < S.h / 3 := by positivity
  unfold containsP quadAt lowEdge highEdge
  simp only [if_neg h3w, if_neg h3h]
  exact ⟨by intro he; linarith, by intro he; linarith, hx0, hx1, hy0, hy1⟩

/-- Converse of `containsP_quadAt_of` for a positive host size. -/
lemma containsP_quadAt_bounds (S : QSizeF) (p : QPointF) (i j : ℚ)
    (hw : 0 < S.w) (hh : 0 < S.h)
    (h : containsP (quadAt S i j) p) :
    i * (S.w / 3) ≤ p.x ∧ p.x ≤ i * (S.w / 3) + S.w / 3 ∧
      j * (S.h / 3) ≤ p.y ∧ p.y ≤ j * (S.h / 3) + S.h / 3 := by
  have h3w : ¬(S.w / 3 < 0) := not_lt.2 (by positivity)
  have h3h : ¬(S.h / 3 < 0) := not_lt.2 (by positivity)
  unfold containsP quadAt lowEdge highEdge at h
  simp only [if_neg h3w, if_neg h3h] at h
  exact ⟨h.2.2.1, h.2.2.2.1, h.2.2.2.2.1, h.2.2.2.2.2⟩

/-- If some cell of the grid contains the point, the chain returns a zone. -/
lemma classifyGravity_isSome_of (S : QSizeF) (p : QPointF)
    (h : containsP (quadAt S 0 0) p ∨ containsP (quadAt S 1 0) p ∨
      containsP (quadAt S 2 0) p ∨ containsP (quadAt S 0 1) p ∨
      containsP (quadAt S 1 1) p ∨ containsP (quadAt S 2 1) p ∨
      containsP (quadAt S 0 2) p ∨ containsP (quadAt S 1 2) p ∨
      containsP (quadAt S 2 2) p) :
    (classifyGravity S p).isSome = true := by
  unfold classifyGravity
  split_ifs <;> simp_all

/-- Claim C3 as stated: every preview-center point arising in the resize
handler (i.e. the scaled center classified when all four guards fail) falls
in one of the nine zones of the new host's 3x3 grid. -/
def C3Prop : Prop :=
  ∀ (s : PreviewState) (oldSize newSize : QSize),
    s.animRunning = false →
    oldSize.isValid →
    s.geometry.size ≠ oldSize →
    resizeRatio oldSize newSize ≠ 1 →
    (classifyGravity newSize.toF
      (scaledPreviewCenter s.geometry (resizeRatio oldSize newSize))).isSome = true

/-- C3 counterexample: host resized from 300x300 to 100x600 (ratio 2) with
the preview at `QRect(240, 40, 40, 40)`.  The scaled center is (520, 120),
horizontally beyond the new host's width 100, so no cell of the grid
contains it: the chain returns no zone and the preview is not anchored by
any branch (it is left at the origin-positioned target rectangle). -/
theorem C3_counterexample : ¬ C3Prop := by
  intro h
  have hc := h ⟨⟨240, 40, 40, 40⟩, 1, 45, 135, false⟩ ⟨300, 300⟩ ⟨100, 600⟩ rfl
    (by constructor <;> norm_num) (by decide) (by norm_num [resizeRatio, QSize.toF])
  norm_num [classifyGravity, containsP, quadAt, lowEdge, highEdge, QSize.toF,
    scaledPreviewCenter, scaledPreviewRect, QRectF.centerF, resizeRatio] at hc

/-- Amended C3: the classification is total on the closed host region (every
center with `0 ≤ x ≤ w` and `0 ≤ y ≤ h` gets exactly one zone — the chain
returns the first matching cell, and as a pure function it is trivially
deterministic), and points on a cell boundary resolve to the top/left-most
zone: the corner point `(w/3, h/3)` and any top-band point on the first
vertical boundary classify as `topLeft`, and a point on the first horizontal
boundary inside the middle column classifies as `top` rather than `center`.
Centers arising from the handler can however lie outside the host region
horizontally (counterexample), in which case no zone applies. -/
theorem C3_classification_total (S : QSizeF) (p : QPointF)
    (hw : 0 < S.w) (hh : 0 < S.h)
    (hx0 : 0 ≤ p.x) (hx1 : p.x ≤ S.w) (hy0 : 0 ≤ p.y) (hy1 : p.y ≤ S.h) :
    (classifyGravity S p).isSome = true ∧
      (p.x = S.w / 3 → p.y ≤ S.h / 3 → classifyGravity S p = some .topLeft) ∧
      (S.w / 3 < p.x → p.x ≤ 2 * (S.w / 3) → p.y = S.h / 3 →
        classifyGravity S p = some .top) := by
  refine ⟨?_, ?_, ?_⟩
  · have hcol : (0 * (S.w / 3) ≤ p.x ∧ p.x ≤ 0 * (S.w / 3) + S.w / 3) ∨
        (1 * (S.w / 3) ≤ p.x ∧ p.x ≤ 1 * (S.w / 3) + S.w / 3) ∨
        (2 * (S.w / 3) ≤ p.x ∧ p.x ≤ 2 * (S.w / 3) + S.w / 3) := by
      rcases le_or_lt p.x (S.w / 3) with h1 | h1
      · exact Or.inl ⟨by linarith, by linarith⟩
      · rcases le_or_lt p.x (2 * (S.w / 3)) with h2 | h2
        · exact Or.inr (Or.inl ⟨by linarith, by linarith⟩)
        · exact Or.inr (Or.inr ⟨by linarith, by linarith⟩)
    have hrow : (0 * (S.h / 3) ≤ p.y ∧ p.y ≤ 0 * (S.h / 3) + S.h / 3) ∨
        (1 * (S.h / 3) ≤ p.y ∧ p.y ≤ 1 * (S.h / 3) + S.h / 3) ∨
        (2 * (S.h / 3) ≤ p.y ∧ p.y ≤ 2 * (S.h / 3) + S.h / 3) := by
      rcases le_or_lt p.y (S.h / 3) with h1 | h1
      · exact Or.inl ⟨by linarith, by linarith⟩
      · rcases le_or_lt p.y (2 * (S.h / 3)) with h2 | h2
        · exact Or.inr (Or.inl ⟨by linarith, by linarith⟩)
        · exact Or.inr (Or.inr ⟨by linarith, by linarith⟩)
    apply classifyGravity_isSome_of
    rcases hcol with hc | hc | hc <;> rcases hrow with hr | hr | hr
    · exact Or.inl (containsP_quadAt_of S p 0 0 hw hh hc.1 hc.2 hr.1 hr.2)
    · exact Or.inr (Or.inr (Or.inr (Or.inl
        (containsP_quadAt_of S p 0 1 hw hh hc.1 hc.2 hr.1 hr.2))))
    · exact Or.inr (Or.inr (Or.inr (Or.inr (Or.inr (Or.inr (Or.inl
        (containsP_quadAt_of S p 0 2 hw hh hc.1 hc.2 hr.1 hr.2)))))))
    · exact Or.inr (Or.inl (containsP_quadAt_of S p 1 0 hw hh hc.1 hc.2 hr.1 hr.2))
    · exact Or.inr (Or.inr (Or.inr (Or.inr (Or.inl
        (containsP_quadAt_of S p 1 1 hw hh hc.1 hc.2 hr.1 hr.2)))))
    · exact Or.inr (Or.inr (Or.inr (Or.inr (Or.inr (Or.inr (Or.inr (Or.inl
        (containsP_quadAt_of S p 1 2 hw hh hc.1 hc.2 hr.1 hr.2))))))))
    · exact Or.inr (Or.inr (Or.inl (containsP_quadAt_of S p 2 0 hw hh hc.1 hc.2 hr.1 hr.2)))
    · exact Or.inr (Or.inr (Or.inr (Or.inr (Or.inr (Or.inl
        (containsP_quadAt_of S p 2 1 hw hh hc.1 hc.2 hr.1 hr.2))))))
    · exact Or.inr (Or.inr (Or.inr (Or.inr (Or.inr (Or.inr (Or.inr (Or.inr
        (containsP_quadAt_of S p 2 2 hw hh hc.1 hc.2 hr.1 hr.2))))))))
  · intro hbx hby
    unfold classifyGravity
    rw [if_pos (containsP_quadAt_of S p 0 0 hw hh (by linarith) (by rw [hbx]; linarith)
      (by linarith) (by linarith))]
  · intro hgt hle hby
    have hnc1 : ¬ containsP (quadAt S 0 0) p := fun hc => by
      have := (containsP_quadAt_bounds S p 0 0 hw hh hc).2.1
      linarith
    unfold classifyGravity
    rw [if_neg hnc1,
      if_pos (containsP_quadAt_of S p 1 0 hw hh (by linarith) (by linarith)
        (by linarith) (by rw [hby]; linarith))]

/-- Concrete instance of the amended C3 theorem: host 300x60, center point
(100, 20) sitting exactly on the first vertical and horizontal grid
boundaries. -/
theorem C3_witness :
    (0 : ℚ) < (300 : ℚ) ∧ (0 : ℚ) < (60 : ℚ) ∧
      ((classifyGravity (⟨300, 60⟩ : QSizeF) ⟨100, 20⟩).isSome = true ∧
        ((100 : ℚ) = (300 : ℚ) / 3 → (20 : ℚ) ≤ (60 : ℚ) / 3 →
          classifyGravity (⟨300, 60⟩ : QSizeF) ⟨100, 20⟩ = some .topLeft) ∧
        ((300 : ℚ) / 3 < (100 : ℚ) → (100 : ℚ) ≤ 2 * ((300 : ℚ) / 3) →
          (20 : ℚ) = (60 : ℚ) / 3 →
          classifyGravity (⟨300, 60⟩ : QSizeF) ⟨100, 20⟩ = some .top)) :=
  ⟨by norm_num, by norm_num,
    C3_classification_total ⟨300, 60⟩ ⟨100, 20⟩ (by norm_num) (by norm_num)
      (by norm_num) (by norm_num) (by norm_num) (by norm_num)⟩

/-! ## Claims C6, C7, C8: target height formula, fullscreen-preview resize,
scale-factor round trip -/

/-- None of the anchoring moves changes the size of the target rectangle. -/
lemma applyGravityMove_size (z : Option Gravity) (pg ideal : QRect) :
    (applyGravityMove z pg ideal).w = pg.w ∧
      (applyGravityMove z pg ideal).h = pg.h := by
  rcases z with _ | z
  · exact ⟨rfl, rfl⟩
  · cases z <;> exact ⟨rfl, rfl⟩

/-- C6: whenever the handler repositions the preview (all four guards fail)
and the preview's height constraints are the configured 45/135, the new
preview height is the integer coercion of
`clamp((newSize.h + 117) / 6 * scaleFactor, 45, 135)` and the new width is
the aspect-ratio width function applied to that same clamped value. -/
theorem C6_preview_height_formula (wfh : ℚ → ℤ) (s : PreviewState)
    (oldSize newSize : QSize)
    (hanim : s.animRunning = false) (hvalid : oldSize.isValid)
    (hfill : s.geometry.size ≠ oldSize)
    (hr1 : resizeRatio oldSize newSize ≠ 1)
    (hmin : s.minH = 45) (hmax : s.maxH = 135) :
    (resizeEvent wfh s oldSize newSize).geometry.h =
      ⌊limitQ (defaultPreviewHeight newSize.toF.h s.scaleFactor) 45 135⌋ ∧
      (resizeEvent wfh s oldSize newSize).geometry.w =
        wfh (limitQ (defaultPreviewHeight newSize.toF.h s.scaleFactor) 45 135) := by
  rw [resizeEvent_reposition wfh s oldSize newSize hanim hvalid hfill hr1]
  rw [(applyGravityMove_size _ _ _).1, (applyGravityMove_size _ _ _).2]
  unfold previewTargetRect previewTargetHeight qtRound
  rw [hmin, hmax]
  norm_num

/-- Concrete instance of the C6 theorem: host resized from 300x300 to
400x303 (so the unclamped target height is exactly 70). -/
theorem C6_witness :
    ((⟨⟨10, 10, 64, 36⟩, 1, 45, 135, false⟩ : PreviewState).animRunning = false) ∧
      (⟨300, 300⟩ : QSize).isValid ∧
      (⟨⟨10, 10, 64, 36⟩, 1, 45, 135, false⟩ : PreviewState).geometry.size ≠
        (⟨300, 300⟩ : QSize) ∧
      resizeRatio ⟨300, 300⟩ ⟨400, 303⟩ ≠ 1 ∧
      ((⟨⟨10, 10, 64, 36⟩, 1, 45, 135, false⟩ : PreviewState).minH = 45) ∧
      ((⟨⟨10, 10, 64, 36⟩, 1, 45, 135, false⟩ : PreviewState).maxH = 135) ∧
      ((resizeEvent (fun _ => 80) ⟨⟨10, 10, 64, 36⟩, 1, 45, 135, false⟩
          ⟨300, 300⟩ ⟨400, 303⟩).geometry.h =
        ⌊limitQ (defaultPreviewHeight (⟨400, 303⟩ : QSize).toF.h 1) 45 135⌋ ∧
        (resizeEvent (fun _ => 80) ⟨⟨10, 10, 64, 36⟩, 1, 45, 135, false⟩
          ⟨300, 300⟩ ⟨400, 303⟩).geometry.w =
          (fun _ => (80 : ℤ))
            (limitQ (defaultPreviewHeight (⟨400, 303⟩ : QSize).toF.h 1) 45 135)) :=
  ⟨rfl, by constructor <;> norm_num, by decide,
    by norm_num [resizeRatio, QSize.toF], rfl, rfl,
    C6_preview_height_formula (fun _ => 80) ⟨⟨10, 10, 64, 36⟩, 1, 45, 135, false⟩
      ⟨300, 300⟩ ⟨400, 303⟩ rfl (by constructor <;> norm_num) (by decide)
      (by norm_num [resizeRatio, QSize.toF]) rfl rfl⟩

/-- C7: when the preview currently fills exactly the host's old size (and
the animation/validity guards pass), the handler only resizes the preview
1:1 to the new host size — same position, and every other component of the
state unchanged. -/
theorem C7_fullscreen_preview_resize (wfh : ℚ → ℤ) (s : PreviewState)
    (oldSize newSize : QSize)
    (hanim : s.animRunning = false) (hvalid : oldSize.isValid)
    (hfill : s.geometry.size = oldSize) :
    resizeEvent wfh s oldSize newSize =
      { s with geometry := { s.geometry with w := newSize.w, h := newSize.h } } := by
  simp only [resizeEvent, hanim, Bool.false_eq_true, if_false,
    if_neg (not_not_intro hvalid), if_pos hfill]

/-- Concrete instance of the C7 theorem: preview fills the 300x300 host,
host resized to 400x200. -/
theorem C7_witness :
    ((⟨⟨0, 0, 300, 300⟩, 1, 45, 135, false⟩ : PreviewState).animRunning = false) ∧
      (⟨300, 300⟩ : QSize).isValid ∧
      (⟨⟨0, 0, 300, 300⟩, 1, 45, 135, false⟩ : PreviewState).geometry.size =
        (⟨300, 300⟩ : QSize) ∧
      resizeEvent (fun _ => 80) ⟨⟨0, 0, 300, 300⟩, 1, 45, 135, false⟩
          ⟨300, 300⟩ ⟨400, 200⟩ =
        ⟨⟨0, 0, 400, 200⟩, 1, 45, 135, false⟩ :=
  ⟨rfl, by constructor <;> norm_num, by decide,
    C7_fullscreen_preview_resize (fun _ => 80) ⟨⟨0, 0, 300, 300⟩, 1, 45, 135, false⟩
      ⟨300, 300⟩ ⟨400, 200⟩ rfl (by constructor <;> norm_num) (by decide)⟩

/-- C8: after a drag-resize of the preview to height `h` while the host
height is `H`, the handler stores `h / ((H + 117) / 6)` as the scale
factor, and evaluating the default-height formula at the same host height
with the new scale factor returns exactly `h` (before any clamping). -/
theorem C8_scale_factor_roundtrip (s : PreviewState) (hostH : ℤ)
    (oldG newG : QRect)
    (hsize : newG.size ≠ oldG.size) (hpos : 0 < hostH) :
    (cameraPreviewAdjusted s hostH oldG newG).scaleFactor =
        (newG.h : ℚ) / (((hostH : ℚ) + 117) / 6) ∧
      defaultPreviewHeight (hostH : ℚ)
        ((cameraPreviewAdjusted s hostH oldG newG).scaleFactor) = (newG.h : ℚ) := by
  have hq : (0 : ℚ) < (hostH : ℚ) := by exact_mod_cast hpos
  have hne : ((hostH : ℚ) + 117) / 6 ≠ 0 := ne_of_gt (by linarith)
  unfold cameraPreviewAdjusted
  rw [if_pos hsize]
  refine ⟨rfl, ?_⟩
  unfold defaultPreviewHeight
  field_simp
  ring

/-- Concrete instance of the C8 theorem: host height 303, preview dragged
from 80x45 to 100x60 (the stored factor becomes 6/7 and the formula
round-trips to 60). -/
theorem C8_witness :
    ((⟨0, 0, 100, 60⟩ : QRect).size ≠ (⟨0, 0, 80, 45⟩ : QRect).size) ∧
      (0 : ℤ) < 303 ∧
      ((cameraPreviewAdjusted ⟨⟨0, 0, 80, 45⟩, 1, 45, 135, false⟩ 303
          ⟨0, 0, 80, 45⟩ ⟨0, 0, 100, 60⟩).scaleFactor =
        ((60 : ℤ) : ℚ) / ((((303 : ℤ) : ℚ) + 117) / 6) ∧
        defaultPreviewHeight ((303 : ℤ) : ℚ)
          ((cameraPreviewAdjusted ⟨⟨0, 0, 80, 45⟩, 1, 45, 135, false⟩ 303
            ⟨0, 0, 80, 45⟩ ⟨0, 0, 100, 60⟩).scaleFactor) = ((60 : ℤ) : ℚ)) :=
  ⟨by decide, by norm_num,
    C8_scale_factor_roundtrip ⟨⟨0, 0, 80, 45⟩, 1, 45, 135, false⟩ 303
      ⟨0, 0, 80, 45⟩ ⟨0, 0, 100, 60⟩ (by decide) (by norm_num)⟩

/-- Concrete instance of the amended C1 theorem: host 300x300 shrinks
proportionally to 150x150 with the preview at `QRect(200, 200, 80, 45)`. -/
theorem C1_witness :
    ((⟨⟨200, 200, 80, 45⟩, 1, 45, 135, false⟩ : PreviewState).animRunning = false) ∧
      (⟨300, 300⟩ : QSize).isValid ∧
      (⟨⟨200, 200, 80, 45⟩, 1, 45, 135, false⟩ : PreviewState).geometry.size ≠
        (⟨300, 300⟩ : QSize) ∧
      (0 : ℤ) < (⟨300, 300⟩ : QSize).h ∧
      (0 : ℤ) < (⟨150, 150⟩ : QSize).h ∧
      (⟨150, 150⟩ : QSize).toF.h / (⟨300, 300⟩ : QSize).toF.h ≠ 1 ∧
      (((⟨150, 150⟩ : QSize).w : ℚ) * ((⟨300, 300⟩ : QSize).h : ℚ) =
        ((⟨150, 150⟩ : QSize).h : ℚ) * ((⟨300, 300⟩ : QSize).w : ℚ)) ∧
      classifyGravity (⟨150, 150⟩ : QSize).toF
          (scaledPreviewCenter
            (⟨⟨200, 200, 80, 45⟩, 1, 45, 135, false⟩ : PreviewState).geometry
            ((⟨150, 150⟩ : QSize).toF.h / (⟨300, 300⟩ : QSize).toF.h)) =
        rectZone (⟨300, 300⟩ : QSize).toF
          (⟨⟨200, 200, 80, 45⟩, 1, 45, 135, false⟩ : PreviewState).geometry :=
  ⟨rfl, by constructor <;> norm_num, by decide, by norm_num, by norm_num,
    by norm_num [QSize.toF], by norm_num,
    C1_gravity_preserved_at_classification _ _ _ rfl
      (by constructor <;> norm_num) (by decide) (by norm_num) (by norm_num)
      (by norm_num [QSize.toF]) (by norm_num)⟩

/-! ## Placement state machine (`VideoWidget` docked / detached / fullscreen)

Models `setParent` (lines 1115-1122), `setVisible` (lines 1124-1131),
`geometryHint` (lines 1133-1141), `_SH_FullscreenButtonClicked`
(lines 1274-1299), `_SH_DetachButtonClicked` (lines 1301-1343) and
`_SH_DetachAnimationFinished` (lines 1375-1401).  Transient visuals (the
no-flicker snapshot label, the hide/show pulse of a tool button) touch no
observable widget state and are not part of the model. -/

/-- Fixed surroundings of the overlay: the parent container's size, the
parent's global position, and the screen rectangle used while fullscreen. -/
structure Env where
  parentW : ℤ
  parentH : ℤ
  parentPos : QPoint
  screen : QRect
  deriving DecidableEq, Repr

/-- Observable state of the `VideoWidget` overlay: parenting, fullscreen
flag, visibility, geometry (global when top-level, parent-relative when
docked), the geometry Qt restores on `showNormal()`, the two checkable
button states, the `active` flags of the tool buttons the handlers touch,
and whether the cursor is the arrow cursor. -/
@[ext]
structure WState where
  hasParent : Bool
  fullscreen : Bool
  visible : Bool
  geometry : QRect
  normalGeometry : QRect
  fsChecked : Bool
  detachChecked : Bool
  detachActive : Bool
  muteActive : Bool
  holdActive : Bool
  closeActive : Bool
  cursorArrow : Bool
  deriving DecidableEq, Repr

/-- `geometryHint()` with a parent present (lines 1133-1137): origin
`(0, 0)`, width the parent's width, height
`min(height_for_width(parent.width()), parent.height() - 175)`.
`hfw = VideoSurface.height_for_width` is modelled from the spec (a pure
aspect-ratio function; `blink/widgets/video.py` is not among the sources). -/
def geometryHint (hfw : ℤ → ℤ) (env : Env) : QRect :=
  ⟨0, 0, env.parentW, min (hfw env.parentW) (env.parentH - 175)⟩

/-- `setParent(self.parent_widget)` (lines 1115-1122): re-parent into the
container and apply the geometry hint. -/
def setParentWidget (hfw : ℤ → ℤ) (env : Env) (s : WState) : WState :=
  { s with hasParent := true, geometry := geometryHint hfw env }

/-- `setParent(None)`: become a top-level window (geometry kept). -/
def setParentNone (s : WState) : WState := { s with hasParent := false }

/-- `self.mapToGlobal(QPoint(0, 0))`: the widget's origin in global
coordinates. -/
def mapToGlobalOrigin (env : Env) (s : WState) : QPoint :=
  if s.hasParent then
    ⟨env.parentPos.x + s.geometry.x, env.parentPos.y + s.geometry.y⟩
  else ⟨s.geometry.x, s.geometry.y⟩

/-- `self.rect().translated(self.mapToGlobal(QPoint(0, 0)))`. -/
def globalGeometry (env : Env) (s : WState) : QRect :=
  ⟨(mapToGlobalOrigin env s).x, (mapToGlobalOrigin env s).y,
    s.geometry.w, s.geometry.h⟩

/-- `showFullScreen()`: enter fullscreen (remembering the normal geometry);
a no-op when already fullscreen. -/
def showFullScreenOp (env : Env) (s : WState) : WState :=
  if s.fullscreen then s
  else { s with fullscreen := true, normalGeometry := s.geometry,
                geometry := env.screen, visible := true }

/-- `showNormal()`: leave fullscreen, restoring the remembered geometry;
a no-op when not fullscreen. -/
def showNormalOp (s : WState) : WState :=
  if s.fullscreen then
    { s with fullscreen := false, geometry := s.normalGeometry, visible := true }
  else s

/-- `VideoWidget.setVisible` (lines 1124-1131): hiding while fullscreen
first leaves fullscreen, re-parents into the container at the parent's
rectangle — but only when the detach button is not checked — and unchecks
the fullscreen button. -/
def setVisible (hfw : ℤ → ℤ) (env : Env) (s : WState) (v : Bool) : WState :=
  if v = false ∧ s.fullscreen then
    let s1 := showNormalOp s
    let s2 :=
      if ¬ s1.detachChecked then
        { (setParentWidget hfw env s1) with
            geometry := ⟨0, 0, env.parentW, env.parentH⟩ }
      else s1
    let s3 := { s2 with fsChecked := false }
    { s3 with visible := v }
  else { s with visible := v }

/-- `VideoWidget._SH_FullscreenButtonClicked` (lines 1274-1299). -/
def fullscreenClicked (hfw : ℤ → ℤ) (env : Env) (s : WState) (checked : Bool) :
    WState :=
  if checked then
    -- lines 1275-1287
    let s1 :=
      if ¬ s.detachChecked then
        let g := globalGeometry env s
        let a := setParentNone s
        let b := { a with geometry := g }
        { b with visible := true }
      else s
    let s2 := { s1 with detachActive := false, muteActive := true,
                        holdActive := true, closeActive := true }
    let s3 := showFullScreenOp env s2
    { s3 with cursorArrow := true }
  else
    -- lines 1288-1298
    let s1 :=
      if ¬ s.detachChecked then
        let a := { s with geometry := geometryHint hfw env }
        let b := setParentWidget hfw env a
        let c := { b with geometry := geometryHint hfw env }
        { c with muteActive := false, holdActive := false, closeActive := false }
      else s
    let s2 := { s1 with detachActive := true }
    let s3 := showNormalOp s2
    let s4 := if s3.hasParent then s3 else { s3 with visible := true }
    { s4 with cursorArrow := true }

/-- One endpoint pair of the geometry animation plus its direction. -/
structure AnimSpec where
  backward : Bool
  startVal : QRect
  endVal : QRect
  deriving DecidableEq, Repr

/-- A finished `QPropertyAnimation` leaves the property at the value the run
ends on — `startValue` when the direction is `Backward`. -/
def animFinalValue (a : AnimSpec) : QRect :=
  if a.backward then a.startVal else a.endVal

/-- `_SH_DetachButtonClicked(False)` (lines 1331-1343): set up the backward
attach animation from the hint geometry (translated to global coordinates)
to the current geometry, and uncheck the fullscreen button;
`parent_widget.window().show()` touches only the external chat window. -/
def detachClickedOff (hfw : ℤ → ℤ) (env : Env) (s : WState) :
    WState × AnimSpec :=
  ({ s with fsChecked := false },
    ⟨true, (geometryHint hfw env).translatedBy env.parentPos, s.geometry⟩)

/-- `_SH_DetachAnimationFinished`, Backward branch (lines 1376-1394, 1401):
re-parent into the container at the hint geometry, show, deactivate the
fullscreen-only controls, restore the arrow cursor. -/
def detachAnimFinishedBwd (hfw : ℤ → ℤ) (env : Env) (s : WState) : WState :=
  let s1 := setParentWidget hfw env s
  let s2 := { s1 with geometry := geometryHint hfw env }
  let s3 := { s2 with visible := true }
  let s4 := { s3 with muteActive := false, holdActive := false,
                      closeActive := false }
  { s4 with cursorArrow := true }

/-- An attach request: `_SH_DetachButtonClicked(False)` followed by the
animation running to completion and its finished handler. -/
def attachRequested (hfw : ℤ → ℤ) (env : Env) (s : WState) : WState :=
  let p := detachClickedOff hfw env s
  let s1 := { p.1 with geometry := animFinalValue p.2 }
  detachAnimFinishedBwd hfw env s1

/-! ## Claim C4: hiding while fullscreen -/

/-- Claim C4 as stated: hiding the overlay while fullscreen exits
fullscreen and leaves the overlay docked (re-parented into the container at
the parent's rectangle) regardless of which state was active before
entering fullscreen. -/
def C4Prop : Prop :=
  ∀ (hfw : ℤ → ℤ) (env : Env) (s : WState),
    s.fullscreen = true →
    (setVisible hfw env s false).fullscreen = false ∧
      (setVisible hfw env s false).visible = false ∧
      (setVisible hfw env s false).hasParent = true ∧
      (setVisible hfw env s false).geometry = ⟨0, 0, env.parentW, env.parentH⟩

/-- C4 counterexample: an overlay that entered fullscreen from the Detached
state (detach button checked) is hidden; `setVisible` exits fullscreen but
skips the re-parenting branch, so the overlay stays a top-level window
(`hasParent = false`), not docked. -/
theorem C4_counterexample : ¬ C4Prop := by
  intro h
  have hc := (h (fun _ => 0) ⟨640, 480, ⟨50, 60⟩, ⟨0, 0, 1920, 1080⟩⟩
    ⟨false, true, true, ⟨0, 0, 1920, 1080⟩, ⟨5, 5, 320, 180⟩, true, true,
      false, true, true, true, true⟩ rfl).2.2.1
  simp [setVisible, showNormalOp, setParentWidget, geometryHint] at hc

/-- Amended C4: hiding while fullscreen always exits fullscreen, unchecks
the fullscreen button and hides; it re-parents into the container at the
parent's rectangle only when the overlay was docked before fullscreen
(detach button unchecked) — when it was detached, the parenting is kept and
the pre-fullscreen floating geometry is restored instead. -/
theorem C4_hide_while_fullscreen (hfw : ℤ → ℤ) (env : Env) (s : WState)
    (hfs : s.fullscreen = true) :
    (setVisible hfw env s false).fullscreen = false ∧
      (setVisible hfw env s false).fsChecked = false ∧
      (setVisible hfw env s false).visible = false ∧
      (s.detachChecked = false →
        (setVisible hfw env s false).hasParent = true ∧
        (setVisible hfw env s false).geometry =
          ⟨0, 0, env.parentW, env.parentH⟩) ∧
      (s.detachChecked = true →
        (setVisible hfw env s false).hasParent = s.hasParent ∧
        (setVisible hfw env s false).geometry = s.normalGeometry) := by
  rcases hdc : s.detachChecked <;>
    simp [setVisible, showNormalOp, setParentWidget, geometryHint, hfs, hdc]

/-- Concrete instance of the amended C4 theorem: overlay fullscreen after
being docked (detach button unchecked). -/
theorem C4_witness :
    ((⟨false, true, true, ⟨0, 0, 1920, 1080⟩, ⟨0, 0, 640, 305⟩, true, false,
        false, true, true, true, true⟩ : WState).fullscreen = true) ∧
      ((setVisible (fun _ => 305) ⟨640, 480, ⟨50, 60⟩, ⟨0, 0, 1920, 1080⟩⟩
          ⟨false, true, true, ⟨0, 0, 1920, 1080⟩, ⟨0, 0, 640, 305⟩, true, false,
            false, true, true, true, true⟩ false).fullscreen = false ∧
        (setVisible (fun _ => 305) ⟨640, 480, ⟨50, 60⟩, ⟨0, 0, 1920, 1080⟩⟩
          ⟨false, true, true, ⟨0, 0, 1920, 1080⟩, ⟨0, 0, 640, 305⟩, true, false,
            false, true, true, true, true⟩ false).fsChecked = false ∧
        (setVisible (fun _ => 305) ⟨640, 480, ⟨50, 60⟩, ⟨0, 0, 1920, 1080⟩⟩
          ⟨false, true, true, ⟨0, 0, 1920, 1080⟩, ⟨0, 0, 640, 305⟩, true, false,
            false, true, true, true, true⟩ false).visible = false ∧
        ((⟨false, true, true, ⟨0, 0, 1920, 1080⟩, ⟨0, 0, 640, 305⟩, true, false,
            false, true, true, true, true⟩ : WState).detachChecked = false →
          (setVisible (fun _ => 305) ⟨640, 480, ⟨50, 60⟩, ⟨0, 0, 1920, 1080⟩⟩
            ⟨false, true, true, ⟨0, 0, 1920, 1080⟩, ⟨0, 0, 640, 305⟩, true, false,
              false, true, true, true, true⟩ false).hasParent = true ∧
          (setVisible (fun _ => 305) ⟨640, 480, ⟨50, 60⟩, ⟨0, 0, 1920, 1080⟩⟩
            ⟨false, true, true, ⟨0, 0, 1920, 1080⟩, ⟨0, 0, 640, 305⟩, true, false,
              false, true, true, true, true⟩ false).geometry =
            ⟨0, 0, 640, 480⟩) ∧
        ((⟨false, true, true, ⟨0, 0, 1920, 1080⟩, ⟨0, 0, 640, 305⟩, true, false,
            false, true, true, true, true⟩ : WState).detachChecked = true →
          (setVisible (fun _ => 305) ⟨640, 480, ⟨50, 60⟩, ⟨0, 0, 1920, 1080⟩⟩
            ⟨false, true, true, ⟨0, 0, 1920, 1080⟩, ⟨0, 0, 640, 305⟩, true, false,
              false, true, true, true, true⟩ false).hasParent = false ∧
          (setVisible (fun _ => 305) ⟨640, 480, ⟨50, 60⟩, ⟨0, 0, 1920, 1080⟩⟩
            ⟨false, true, true, ⟨0, 0, 1920, 1080⟩, ⟨0, 0, 640, 305⟩, true, false,
              false, true, true, true, true⟩ false).geometry =
            ⟨0, 0, 640, 305⟩)) :=
  ⟨rfl, C4_hide_while_fullscreen (fun _ => 305)
    ⟨640, 480, ⟨50, 60⟩, ⟨0, 0, 1920, 1080⟩⟩
    ⟨false, true, true, ⟨0, 0, 1920, 1080⟩, ⟨0, 0, 640, 305⟩, true, false,
      false, true, true, true, true⟩ rfl⟩

/-! ## Claim C5: idempotence of placement requests -/

/-- C5: a fullscreen request while already Fullscreen (with the control
flags in the state fullscreen entry establishes) leaves the widget state —
placement, geometry and active controls — exactly unchanged, and an attach
request while already Docked at the hint geometry (with the docked control
flags) runs its animation back to the very same state. -/
theorem C5_idempotent_requests (hfw : ℤ → ℤ) (env : Env) (s t : WState)
    (hfs : s.fullscreen = true) (hsp : s.hasParent = false)
    (hsv : s.visible = true) (hsd : s.detachActive = false)
    (hsm : s.muteActive = true) (hsh : s.holdActive = true)
    (hsc : s.closeActive = true) (hscur : s.cursorArrow = true)
    (htp : t.hasParent = true) (htf : t.fullscreen = false)
    (htv : t.visible = true) (htg : t.geometry = geometryHint hfw env)
    (htm : t.muteActive = false) (hth : t.holdActive = false)
    (htc : t.closeActive = false) (htfs : t.fsChecked = false)
    (htcur : t.cursorArrow = true) :
    fullscreenClicked hfw env s true = s ∧ attachRequested hfw env t = t := by
  constructor
  · rcases hdc : s.detachChecked <;>
      (apply WState.ext <;>
        simp [fullscreenClicked, globalGeometry, mapToGlobalOrigin,
          setParentNone, showFullScreenOp, hfs, hsp, hsv, hsd, hsm, hsh,
          hsc, hscur, hdc])
  · apply WState.ext <;>
      simp [attachRequested, detachClickedOff, animFinalValue,
        detachAnimFinishedBwd, setParentWidget, QRect.translatedBy,
        htp, htf, htv, htg, htm, hth, htc, htfs, htcur]

/-- Concrete instance of the C5 theorem: a 1920x1080 fullscreen overlay and
a 640x200 docked overlay inside a 640x480 parent. -/
theorem C5_witness :
    ((⟨false, true, true, ⟨0, 0, 1920, 1080⟩, ⟨5, 5, 320, 180⟩, true, false,
        false, true, true, true, true⟩ : WState).fullscreen = true) ∧
      ((⟨true, false, true, ⟨0, 0, 640, 200⟩, ⟨1, 1, 2, 2⟩, false, false,
          true, false, false, false, true⟩ : WState).geometry =
        geometryHint (fun _ => 200) ⟨640, 480, ⟨50, 60⟩, ⟨0, 0, 1920, 1080⟩⟩) ∧
      (fullscreenClicked (fun _ => 200) ⟨640, 480, ⟨50, 60⟩, ⟨0, 0, 1920, 1080⟩⟩
          ⟨false, true, true, ⟨0, 0, 1920, 1080⟩, ⟨5, 5, 320, 180⟩, true, false,
            false, true, true, true, true⟩ true =
        ⟨false, true, true, ⟨0, 0, 1920, 1080⟩, ⟨5, 5, 320, 180⟩, true, false,
          false, true, true, true, true⟩ ∧
        attachRequested (fun _ => 200) ⟨640, 480, ⟨50, 60⟩, ⟨0, 0, 1920, 1080⟩⟩
          ⟨true, false, true, ⟨0, 0, 640, 200⟩, ⟨1, 1, 2, 2⟩, false, false,
            true, false, false, false, true⟩ =
        ⟨true, false, true, ⟨0, 0, 640, 200⟩, ⟨1, 1, 2, 2⟩, false, false,
          true, false, false, false, true⟩) :=
  ⟨rfl, by norm_num [geometryHint],
    C5_idempotent_requests (fun _ => 200)
      ⟨640, 480, ⟨50, 60⟩, ⟨0, 0, 1920, 1080⟩⟩
      ⟨false, true, true, ⟨0, 0, 1920, 1080⟩, ⟨5, 5, 320, 180⟩, true, false,
        false, true, true, true, true⟩
      ⟨true, false, true, ⟨0, 0, 640, 200⟩, ⟨1, 1, 2, 2⟩, false, false,
        true, false, false, false, true⟩
      rfl rfl rfl rfl rfl rfl rfl rfl rfl rfl rfl
      (by norm_num [geometryHint]) rfl rfl rfl rfl rfl⟩

/-! ## Screenshots (`VideoScreenshot`, lines 2614-2642) -/

/-- The n-th filename yielded by `VideoScreenshot.filename_generator`
(lines 2619-2625): `name.png` first, then `name-1.png`, `name-2.png`, ...
(`name` stands for the directory-qualified timestamp prefix the generator
computes once). -/
def filenameAt (name : String) (n : ℕ) : String :=
  if n = 0 then name ++ ".png" else name ++ "-" ++ toString n ++ ".png"

/-- The index `next(filename for filename in self.filename_generator() if
not os.path.exists(filename))` stops at (line 2640): the least index whose
filename does not exist on disk; `fsExists` stands for `os.path.exists`.
Total given that some index is fresh (otherwise the Python `next` would
scan forever). -/
def savedIndex (fsExists : String → Bool) (name : String)
    (h : ∃ n, fsExists (filenameAt name n) = false) : ℕ := Nat.find h

/-- The filename `VideoScreenshot.save` writes to. -/
def savedFilename (fsExists : String → Bool) (name : String)
    (h : ∃ n, fsExists (filenameAt name n) = false) : String :=
  filenameAt name (savedIndex fsExists name h)

/-- A captured video frame (opaque payload). -/
structure Frame where
  id : ℕ
  deriving DecidableEq, Repr

/-- `VideoScreenshot.__init__` (line 2617): the stored image starts `None`. -/
def newScreenshotImage : Option Frame := none

/-- `VideoScreenshot.capture` (lines 2627-2635): copy the surface's current
frame into the screenshot.  When the surface has no frame
(`self.surface._image` absent or `None`, so `.copy()` raises
`AttributeError`), the `except` branch swallows the error and the stored
image is left unchanged (and no shutter sound plays); the result is the
stored image after the call. -/
def captureImage (surfaceImage : Option Frame) (stored : Option Frame) :
    Option Frame :=
  match surfaceImage with
  | none => stored
  | some f => some f

/-- `VideoScreenshot.save` (lines 2637-2642): write the image to the first
fresh filename, or perform no write when no image was captured.  The result
is the path written (`none` when nothing is written). -/
def saveAction (image : Option Frame) (fsExists : String → Bool)
    (name : String) (h : ∃ n, fsExists (filenameAt name n) = false) :
    Option String :=
  match image with
  | none => none
  | some _ => some (savedFilename fsExists name h)

/-- C9: the generator yields `name.png` and then `name-1.png`,
`name-2.png`, ... in increasing index order; saving a captured image writes
to the first generated filename not on disk (every earlier one exists, the
chosen one does not). -/
theorem C9_screenshot_filenames (fsExists : String → Bool) (name : String)
    (h : ∃ n, fsExists (filenameAt name n) = false) (f : Frame) :
    filenameAt name 0 = name ++ ".png" ∧
      (∀ k : ℕ,
        filenameAt name (k + 1) = name ++ "-" ++ toString (k + 1) ++ ".png") ∧
      fsExists (savedFilename fsExists name h) = false ∧
      (∀ m < savedIndex fsExists name h, fsExists (filenameAt name m) = true) ∧
      saveAction (some f) fsExists name h =
        some (savedFilename fsExists name h) := by
  refine ⟨rfl, fun k => rfl, ?_, ?_, rfl⟩
  · simpa [savedFilename, savedIndex] using Nat.find_spec h
  · intro m hm
    have hmin := Nat.find_min h (m := m) hm
    simpa using hmin

/-- Existence of a fresh filename for the C9 witness scenario: only
`shot.png` is on disk, so index 1 is fresh. -/
def c9Exists : ∃ n, (fun p => p == "shot.png") (filenameAt "shot" n) = false :=
  ⟨1, by decide⟩

/-- Concrete instance of the C9 theorem: `shot.png` already exists, nothing
else does; the handler saves to `shot-1.png`. -/
theorem C9_witness :
    (∃ n, (fun p => p == "shot.png") (filenameAt "shot" n) = false) ∧
      (filenameAt "shot" 0 = "shot" ++ ".png" ∧
        (∀ k : ℕ,
          filenameAt "shot" (k + 1) = "shot" ++ "-" ++ toString (k + 1) ++ ".png") ∧
        (fun p => p == "shot.png")
            (savedFilename (fun p => p == "shot.png") "shot" c9Exists) = false ∧
        (∀ m < savedIndex (fun p => p == "shot.png") "shot" c9Exists,
          (fun p => p == "shot.png") (filenameAt "shot" m) = true) ∧
        saveAction (some ⟨0⟩) (fun p => p == "shot.png") "shot" c9Exists =
          some (savedFilename (fun p => p == "shot.png") "shot" c9Exists)) ∧
      savedFilename (fun p => p == "shot.png") "shot" c9Exists = "shot-1.png" :=
  ⟨c9Exists,
    C9_screenshot_filenames (fun p => p == "shot.png") "shot" c9Exists ⟨0⟩,
    by
      have hidx : savedIndex (fun p => p == "shot.png") "shot" c9Exists = 1 := by
        rw [savedIndex, Nat.find_eq_iff]
        exact ⟨by decide, fun m hm => by
          have hm0 : m = 0 := by omega
          subst hm0
          decide⟩
      rw [savedFilename, hidx]
      rfl⟩

/-- C10: capture with no current frame leaves the stored image unchanged —
in particular a fresh screenshot's image stays `None` — and a subsequent
save writes nothing; a frame is written to disk exactly when capture
obtained one. -/
theorem C10_capture_failure_nonfatal (stored : Option Frame)
    (fsExists : String → Bool) (name : String)
    (h : ∃ n, fsExists (filenameAt name n) = false) (f : Frame) :
    captureImage none newScreenshotImage = none ∧
      captureImage none stored = stored ∧
      saveAction (captureImage none newScreenshotImage) fsExists name h = none ∧
      saveAction (some f) fsExists name h =
        some (savedFilename fsExists name h) :=
  ⟨rfl, rfl, rfl, rfl⟩

/-- Existence of a fresh filename for the C10 witness scenario: the disk is
empty. -/
def c10Exists :
    ∃ n, (fun _ : String => false) (filenameAt "shot" n) = false :=
  ⟨0, rfl⟩

/-- Concrete instance of the C10 theorem: empty disk, a stored frame with
payload 7, a captured frame with payload 3. -/
theorem C10_witness :
    (∃ n, (fun _ : String => false) (filenameAt "shot" n) = false) ∧
      (captureImage none newScreenshotImage = none ∧
        captureImage none (some ⟨7⟩) = some ⟨7⟩ ∧
        saveAction (captureImage none newScreenshotImage) (fun _ => false)
          "shot" c10Exists = none ∧
        saveAction (some ⟨3⟩) (fun _ => false) "shot" c10Exists =
          some (savedFilename (fun _ => false) "shot" c10Exists)) :=
  ⟨c10Exists,
    C10_capture_failure_nonfatal (some ⟨7⟩) (fun _ => false) "shot" c10Exists ⟨3⟩⟩

end BlinkChat
